import Mathlib

/-!
Shallow embedding of `src/main.rs` of discord-mediaplayer-rpc.

The program bridges an MPRIS media player (over D-Bus) to a Discord rich
presence.  The pure layers (`parse_metadata`, `parse_playback`,
`From<MediaInfo> for Activity`) are translated directly; the per-notification
closure of `stream_fut` and the `_discord_client` consumer task are embedded
as pure functions of their query results, and the task/channel interplay is
modelled as a small-step transition system.
-/

deriving instance DecidableEq for Except

/-- D-Bus property values as far as this program inspects them: `prop_cast`
downcasts a variant to a concrete Rust type, so we model a variant by the
cases the code distinguishes — a string, a list of strings, or anything
else (`vOther`), which no `prop_cast` of this program succeeds on. -/
inductive DBusValue where
  | vString (s : String)
  | vStringList (l : List String)
  | vOther
deriving DecidableEq, Repr

/-- The `dbus::arg::PropMap` (a map from property names to variants),
modelled as an association list with first-match lookup. -/
abbrev PropMap := List (String × DBusValue)

/-- Lookup in a `PropMap` (the `map.get(key)` half of `arg::prop_cast`). -/
def lookupProp : PropMap → String → Option DBusValue
  | [], _ => none
  | (k, v) :: rest, key => if k = key then some v else lookupProp rest key

/-- `arg::prop_cast::<String>(map, key).cloned()`: the value must be present
and downcast to `String`, otherwise `None`. -/
def propCastString (m : PropMap) (key : String) : Option String :=
  match lookupProp m key with
  | some (DBusValue.vString s) => some s
  | _ => none

/-- `arg::prop_cast::<Vec<String>>(map, key).cloned()`: the value must be
present and downcast to `Vec<String>`, otherwise `None`. -/
def propCastStringList (m : PropMap) (key : String) : Option (List String) :=
  match lookupProp m key with
  | some (DBusValue.vStringList l) => some l
  | _ => none

/-- Property-name constants of the `keys` module in `main.rs`. -/
def keys.TITLE : String := "xesam:title"

/-- Album key, `keys::ALBUM` in `main.rs`. -/
def keys.ALBUM : String := "xesam:album"

/-- Artist key, `keys::ARTIST` in `main.rs`. -/
def keys.ARTIST : String := "xesam:artist"

/-- The `MediaInfo` struct of `main.rs` (lines 31–36). -/
structure MediaInfo where
  title : String
  artist : String
  album : String
deriving DecidableEq, Repr

/-- The `PlaybackStatus` enum of `main.rs` (lines 78–84). -/
inductive PlaybackStatus where
  | Stopped
  | Playing
  | Paused
  | Closed
deriving DecidableEq, Repr

/-- `fn parse_metadata(metadata: &PropMap) -> anyhow::Result<MediaInfo>`
(lines 45–58): casts title and album as strings and artist as a list of
strings; errors only when all three casts come back `None`; otherwise each
missing cast defaults (`unwrap_or_default`), and the artist list is joined
with `join(" & ")`. -/
def parse_metadata (metadata : PropMap) : Except String MediaInfo :=
  match propCastString metadata keys.TITLE, propCastString metadata keys.ALBUM,
        propCastStringList metadata keys.ARTIST with
  | none, none, none => Except.error "no track data returned"
  | title, album, artist =>
      Except.ok { title := title.getD "", album := album.getD "",
                  artist := String.intercalate " & " (artist.getD []) }

/-- Outcome of `parse_playback`: `ok` for a returned status, `fatal s` for
the panicking arm of the match (the source line 66 panics on any status
string not covered by a guard, carrying the offending string in the panic
message). -/
inductive ClassifyResult where
  | ok (status : PlaybackStatus)
  | fatal (unknown : String)
deriving DecidableEq, Repr

/-- `fn parse_playback(playback: Option<String>) -> PlaybackStatus`
(lines 60–68).  The guard chain `Some(s) if s == "Paused" | "Playing" |
"Stopped"` becomes a conditional chain; the final catch-all arm panics,
modelled as `ClassifyResult.fatal`. -/
def parse_playback (playback : Option String) : ClassifyResult :=
  match playback with
  | none => ClassifyResult.ok PlaybackStatus.Closed
  | some s =>
      if s = "Paused" then ClassifyResult.ok PlaybackStatus.Paused
      else if s = "Playing" then ClassifyResult.ok PlaybackStatus.Playing
      else if s = "Stopped" then ClassifyResult.ok PlaybackStatus.Stopped
      else ClassifyResult.fatal s

/-- `async fn read_metadata` (lines 70–76) as a function of the outcome of
the D-Bus `Metadata` query: a transport failure is mapped to the error
"dbus error" (`map_err`), a returned property bag is fed to
`parse_metadata` (`and_then`). -/
def read_metadata (metadataQuery : Except Unit PropMap) : Except String MediaInfo :=
  match metadataQuery with
  | Except.error _ => Except.error "dbus error"
  | Except.ok md => parse_metadata md

/-- `async fn read_playback_status` (lines 86–88) as a function of the
outcome of the D-Bus `PlaybackStatus` query: `.ok()` turns the query result
into an `Option` (failure becomes `None`), which `parse_playback`
classifies. -/
def read_playback_status (statusQuery : Except Unit String) : ClassifyResult :=
  parse_playback statusQuery.toOption

/-- `type PlayingMessage = (Option<MediaInfo>, PlaybackStatus)` (line 90),
the unit sent over the mpsc channel. -/
abbrev PlayingMessage := Option MediaInfo × PlaybackStatus

/-- The `Activity` struct of `main.rs` (lines 197–200): `details` is the
headline, `state` the optional subline. -/
structure Activity where
  state : Option String
  details : String
deriving DecidableEq, Repr

/-- `impl From<MediaInfo> for Activity` (lines 202–215): empty album gives
no `state`; non-empty album gives `state = "From {album}"`; `details` is
always `"Playing {artist} - {title}"`. -/
def Activity.fromMediaInfo (mi : MediaInfo) : Activity :=
  if mi.album = "" then
    { state := none, details := "Playing " ++ mi.artist ++ " - " ++ mi.title }
  else
    { state := some ("From " ++ mi.album),
      details := "Playing " ++ mi.artist ++ " - " ++ mi.title }

/-- The one call the consumer task makes to the Discord client per received
message: `set_activity` with the headline and optional subline, or
`clear_activity`. -/
inductive PresenceAction where
  | setActivity (details : String) (state : Option String)
  | clearActivity
deriving DecidableEq, Repr

/-- The body of the `while let` loop of the `_discord_client` task
(lines 129–144): `(Some(mi), Playing)` converts `mi` into an `Activity` and
sets it (the inner match on `activity.state` decides whether a subline is
attached); `(Some(_), _)` and `(None, _)` both clear. -/
def handleEvent : PlayingMessage → PresenceAction
  | (some mi, PlaybackStatus.Playing) =>
      let activity := Activity.fromMediaInfo mi
      match activity.state with
      | some album => PresenceAction.setActivity activity.details (some album)
      | none => PresenceAction.setActivity activity.details none
  | (some _, _) => PresenceAction.clearActivity
  | (none, _) => PresenceAction.clearActivity

/-- Outcome of one iteration of the `stream_fut` per-notification closure:
either the list of messages that iteration sends on the channel (in order),
or the fatal panic of `parse_playback` on an unknown status string. -/
inductive HandlerOutcome where
  | emits (msgs : List PlayingMessage)
  | fatal (unknown : String)
deriving DecidableEq, Repr

/-- The per-notification closure of `stream_fut` (lines 155–174) as a
function of the outcomes of its two queries.  It reads and classifies the
playback status; when the status is `Paused` or `Playing` it runs
`read_metadata(...).and_then(|mi| tx.send((Some(mi), status)))` — on a
metadata error the `and_then` chain short-circuits and the send is skipped
(the `let _ =` discards the error), so nothing is emitted; otherwise it
sends `(None, status)`. -/
def handleNotification (statusQuery : Except Unit String)
    (metadataQuery : Except Unit PropMap) : HandlerOutcome :=
  match read_playback_status statusQuery with
  | ClassifyResult.fatal s => HandlerOutcome.fatal s
  | ClassifyResult.ok status =>
      match status with
      | PlaybackStatus.Paused | PlaybackStatus.Playing =>
          (match read_metadata metadataQuery with
           | Except.ok mi => HandlerOutcome.emits [(some mi, status)]
           | Except.error _ => HandlerOutcome.emits [])
      | _ => HandlerOutcome.emits [(none, status)]

/-- A notification, represented by the outcomes the two D-Bus queries will
have when the listener processes it (the notification payload itself is
ignored by the code, line 155: it only serves as a wake-up). -/
abbrev NotifInput := Except Unit String × Except Unit PropMap

/-- The messages a notification contributes to the channel (empty on the
fatal path, which kills the process before sending anything). -/
def emissionsOf (n : NotifInput) : List PlayingMessage :=
  match handleNotification n.1 n.2 with
  | HandlerOutcome.emits msgs => msgs
  | HandlerOutcome.fatal _ => []

/-- Global state of the running process: the listener (`stream_fut`), the
bounded mpsc channel (capacity 25, line 121), and the `_discord_client`
consumer task.  `processed` and `sent` are history variables recording, in
order, the notifications the listener has consumed and the messages it has
sent on the channel. -/
structure SysState where
  pendingNotifs : List NotifInput
  streamOpen : Bool
  senderOpen : Bool
  queue : List PlayingMessage
  pushed : List PresenceAction
  processed : List NotifInput
  sent : List PlayingMessage
  actorTerminated : Bool
  processExited : Bool

/-- Initial state: nothing processed, channel empty, stream live. -/
def initState (notifs : List NotifInput) : SysState :=
  { pendingNotifs := notifs, streamOpen := true, senderOpen := true,
    queue := [], pushed := [], processed := [], sent := [],
    actorTerminated := false, processExited := false }

/-- Small-step semantics of the task interplay in `main` (lines 120–194).
Each constructor is one atomic step of one task:
* `listener` — one full iteration of the `for_each` closure (lines 155–174):
  `futures::StreamExt::for_each` runs the closure's future to completion
  before taking the next stream item, so status query, metadata query,
  classification and the channel send of one notification happen as a unit,
  with no second notification in flight.  The send needs channel capacity
  (`tokio::sync::mpsc::channel(25)` suspends the sender when full) and a
  live stream and sender.
* `shutdown` — the console task drops the `Tripwire` trigger (line 188);
  `take_until_if` then stops yielding items.
* `streamEnd` — `stream_fut` completes and is dropped at the `await`
  (line 192), dropping `tx` and closing the channel's sending side.
* `actorRecv` — one iteration of the consumer's `while let
  Some(mi_mb) = rx.recv().await` (line 129): pops the oldest queued message
  and performs its one presence call.
* `actorDone` — `rx.recv()` returns `None`: per tokio mpsc semantics this
  happens only once the channel is closed (sender dropped) and empty, so
  the consumer loop ends.
* `mainExit` — `main` returns right after `stream_fut.await` (lines 192–194)
  without awaiting the `_discord_client` join handle; returning from the
  `tokio::main` runtime drops still-running spawned tasks, so this step can
  fire as soon as `stream_fut` is done, whatever the consumer still has
  queued. -/
inductive Step : SysState → SysState → Prop where
  | listener (s : SysState) (n : NotifInput) (rest : List NotifInput)
      (msgs : List PlayingMessage)
      (hrun : s.processExited = false) (hopen : s.streamOpen = true)
      (hsend : s.senderOpen = true) (hpend : s.pendingNotifs = n :: rest)
      (hcap : s.queue.length + msgs.length ≤ 25)
      (hout : handleNotification n.1 n.2 = HandlerOutcome.emits msgs) :
      Step s { s with
               pendingNotifs := rest,
               processed := s.processed ++ [n],
               queue := s.queue ++ msgs,
               sent := s.sent ++ msgs }
  | shutdown (s : SysState) (hrun : s.processExited = false)
      (hopen : s.streamOpen = true) :
      Step s { s with streamOpen := false }
  | streamEnd (s : SysState) (hrun : s.processExited = false)
      (hclosed : s.streamOpen = false) (hsend : s.senderOpen = true) :
      Step s { s with senderOpen := false }
  | actorRecv (s : SysState) (m : PlayingMessage) (rest : List PlayingMessage)
      (hrun : s.processExited = false) (halive : s.actorTerminated = false)
      (hq : s.queue = m :: rest) :
      Step s { s with queue := rest, pushed := s.pushed ++ [handleEvent m] }
  | actorDone (s : SysState) (hrun : s.processExited = false)
      (halive : s.actorTerminated = false) (hsend : s.senderOpen = false)
      (hq : s.queue = []) :
      Step s { s with actorTerminated := true }
  | mainExit (s : SysState) (hrun : s.processExited = false)
      (hsend : s.senderOpen = false) :
      Step s { s with processExited := true }

/-- Reachability: any finite interleaving of the steps above. -/
def Reachable (s t : SysState) : Prop := Relation.ReflTransGen Step s t

/-- Pipeline invariant: `sent` splits into the already-consumed prefix
`done` (whose presence calls, in order, are exactly `pushed`) followed by
the still-queued suffix; `sent` is the in-order concatenation of the
emissions of the processed notifications; and the processed notifications
are a prefix of the notification sequence. -/
def PipelineInv (notifs : List NotifInput) (s : SysState) : Prop :=
  (∃ done, s.sent = done ++ s.queue ∧ s.pushed = done.map handleEvent)
  ∧ s.sent = (s.processed.map emissionsOf).flatten
  ∧ s.processed ++ s.pendingNotifs = notifs

lemma pipelineInv_init (notifs : List NotifInput) :
    PipelineInv notifs (initState notifs) :=
  ⟨⟨[], rfl, rfl⟩, rfl, rfl⟩

lemma pipelineInv_step (notifs : List NotifInput) (s t : SysState)
    (hst : Step s t) (h : PipelineInv notifs s) : PipelineInv notifs t := by
  obtain ⟨⟨done, hsent, hpush⟩, hjoin, hproc⟩ := h
  cases hst with
  | listener n rest msgs hrun hopen hsend hpend hcap hout =>
      refine ⟨⟨done, ?_, hpush⟩, ?_, ?_⟩
      · simp [hsent, List.append_assoc]
      · simp [hjoin, emissionsOf, hout]
      · simp only [List.append_assoc, List.singleton_append, ← hpend, hproc]
  | shutdown hrun hopen => exact ⟨⟨done, hsent, hpush⟩, hjoin, hproc⟩
  | streamEnd hrun hclosed hsend => exact ⟨⟨done, hsent, hpush⟩, hjoin, hproc⟩
  | actorRecv m rest hrun halive hq =>
      refine ⟨⟨done ++ [m], ?_, ?_⟩, hjoin, hproc⟩
      · simp [hsent, hq]
      · simp [hpush]
  | actorDone hrun halive hsend hq => exact ⟨⟨done, hsent, hpush⟩, hjoin, hproc⟩
  | mainExit hrun hsend => exact ⟨⟨done, hsent, hpush⟩, hjoin, hproc⟩

lemma pipelineInv_reachable (notifs : List NotifInput) (s : SysState)
    (h : Reachable (initState notifs) s) : PipelineInv notifs s := by
  induction h with
  | refl => exact pipelineInv_init notifs
  | tail _ hstep ih => exact pipelineInv_step notifs _ _ hstep ih

lemma parse_metadata_eq (m : PropMap) :
    parse_metadata m =
      if propCastString m keys.TITLE = none ∧ propCastString m keys.ALBUM = none ∧
         propCastStringList m keys.ARTIST = none
      then Except.error "no track data returned"
      else Except.ok
        { title := (propCastString m keys.TITLE).getD "",
          album := (propCastString m keys.ALBUM).getD "",
          artist := String.intercalate " & " ((propCastStringList m keys.ARTIST).getD []) } := by
  unfold parse_metadata
  rcases propCastString m keys.TITLE with _ | t <;>
    rcases propCastString m keys.ALBUM with _ | a <;>
      rcases propCastStringList m keys.ARTIST with _ | r <;> simp

lemma parse_metadata_ok_fields (m : PropMap) (mi : MediaInfo)
    (h : parse_metadata m = Except.ok mi) :
    mi.title = (propCastString m keys.TITLE).getD "" ∧
    mi.album = (propCastString m keys.ALBUM).getD "" ∧
    mi.artist = String.intercalate " & " ((propCastStringList m keys.ARTIST).getD []) := by
  rw [parse_metadata_eq] at h
  split at h
  · cases h
  · cases h
    exact ⟨rfl, rfl, rfl⟩

/-- C2 counterexample: a property bag whose artist entry is a plain string.
The artist property is present in the bag, yet `parse_metadata` returns the
"no metadata" error, because `prop_cast::<Vec<String>>` does not accept a
plain string — refuting the claim that an error is returned only when all
three properties are absent. -/
theorem C2_counterexample :
    lookupProp [("xesam:artist", DBusValue.vString "Alice")] keys.ARTIST
      = some (DBusValue.vString "Alice")
    ∧ parse_metadata [("xesam:artist", DBusValue.vString "Alice")]
      = Except.error "no track data returned" :=
  ⟨rfl, rfl⟩

/-- C2 (amended): `parse_metadata` returns "no metadata" if and only if
none of the three properties yields a value at the type the code casts it
to — title and album as strings, artist as a list of strings; a property
present at any other type (such as a plain-string artist) counts as absent.
When at least one cast succeeds, every non-extracted field of the returned
record defaults to the empty string (the artist list is joined with
`" & "`, the empty list joining to `""`). -/
theorem C2_amended (m : PropMap) :
    (parse_metadata m = Except.error "no track data returned" ↔
      (propCastString m keys.TITLE = none ∧ propCastString m keys.ALBUM = none ∧
       propCastStringList m keys.ARTIST = none))
    ∧ (∀ mi, parse_metadata m = Except.ok mi →
        mi.title = (propCastString m keys.TITLE).getD "" ∧
        mi.album = (propCastString m keys.ALBUM).getD "" ∧
        mi.artist = String.intercalate " & " ((propCastStringList m keys.ARTIST).getD [])) := by
  constructor
  · rw [parse_metadata_eq]
    split
    · simp_all
    · simp_all
  · intro mi h
    exact parse_metadata_ok_fields m mi h

/-- C2 witness: a bag holding only a string title is parsed into a record
whose album and artist fields are empty. -/
theorem C2_amended_witness :
    (MediaInfo.mk "T" "" "").title
        = (propCastString [(keys.TITLE, DBusValue.vString "T")] keys.TITLE).getD ""
    ∧ (MediaInfo.mk "T" "" "").album
        = (propCastString [(keys.TITLE, DBusValue.vString "T")] keys.ALBUM).getD ""
    ∧ (MediaInfo.mk "T" "" "").artist
        = String.intercalate " & "
            ((propCastStringList [(keys.TITLE, DBusValue.vString "T")] keys.ARTIST).getD []) :=
  (C2_amended [(keys.TITLE, DBusValue.vString "T")]).2 (MediaInfo.mk "T" "" "") rfl

/-- C3 counterexample: with a plain-string artist entry (title present so a
record is returned at all), the artist field of the result is the empty
string, not the string stored in the bag — refuting the claim that a
plain-string artist is extracted as-is. -/
theorem C3_counterexample :
    parse_metadata [("xesam:title", DBusValue.vString "T"),
                    ("xesam:artist", DBusValue.vString "Alice")]
      = Except.ok (MediaInfo.mk "T" "" "")
    ∧ (MediaInfo.mk "T" "" "").artist ≠ "Alice" :=
  ⟨rfl, by decide⟩

/-- C3 (amended): `parse_metadata` extracts the artist only as a list of
strings, joined with `" & "`; an artist entry holding a plain string is not
extracted (the `Vec<String>` cast fails), so whenever a record is returned
its artist field is the empty string in that case. -/
theorem C3_amended (m : PropMap) (mi : MediaInfo)
    (h : parse_metadata m = Except.ok mi) :
    (∀ l, propCastStringList m keys.ARTIST = some l →
        mi.artist = String.intercalate " & " l)
    ∧ (∀ s, lookupProp m keys.ARTIST = some (DBusValue.vString s) →
        mi.artist = "") := by
  have hf := parse_metadata_ok_fields m mi h
  constructor
  · intro l hl
    rw [hf.2.2, hl]
    rfl
  · intro s hs
    have hnone : propCastStringList m keys.ARTIST = none := by
      unfold propCastStringList
      rw [hs]
    rw [hf.2.2, hnone]
    rfl

/-- C3 witness: an artist list of two names is joined with `" & "`. -/
theorem C3_amended_witness :
    (MediaInfo.mk "" "Alice & Bob" "").artist = String.intercalate " & " ["Alice", "Bob"] :=
  (C3_amended [(keys.ARTIST, DBusValue.vStringList ["Alice", "Bob"])]
      (MediaInfo.mk "" "Alice & Bob" "") rfl).1 ["Alice", "Bob"] rfl

/-- C4 (confirmed): `parse_playback` maps absence to `Closed`, the three
known status strings to their states, and any other non-empty string to the
fatal panic arm (carrying the offending string); and a failed status query,
turned into `None` by `.ok()`, makes `read_playback_status` yield `Closed`. -/
theorem C4_playback_mapping :
    parse_playback none = ClassifyResult.ok PlaybackStatus.Closed
    ∧ parse_playback (some "Paused") = ClassifyResult.ok PlaybackStatus.Paused
    ∧ parse_playback (some "Playing") = ClassifyResult.ok PlaybackStatus.Playing
    ∧ parse_playback (some "Stopped") = ClassifyResult.ok PlaybackStatus.Stopped
    ∧ (∀ s : String, s ≠ "" → s ≠ "Paused" → s ≠ "Playing" → s ≠ "Stopped" →
        parse_playback (some s) = ClassifyResult.fatal s)
    ∧ read_playback_status (Except.error ()) = ClassifyResult.ok PlaybackStatus.Closed := by
  refine ⟨rfl, rfl, rfl, rfl, ?_, rfl⟩
  intro s _ h2 h3 h4
  simp [parse_playback, h2, h3, h4]

/-- C4 witness: an unknown status string takes the fatal arm. -/
theorem C4_playback_mapping_witness :
    parse_playback (some "Fish") = ClassifyResult.fatal "Fish" :=
  C4_playback_mapping.2.2.2.2.1 "Fish" (by decide) (by decide) (by decide) (by decide)

/-- C10 (confirmed): the empty string matches none of the guards of
`parse_playback`, so `Some("")` also falls through to the panicking
catch-all arm; it is not mapped to any `PlaybackStatus`. -/
theorem C10_empty_status_fatal :
    parse_playback (some "") = ClassifyResult.fatal "" := rfl

/-- C8 (confirmed): the `MediaInfo → Activity` conversion always produces
the headline `"Playing {artist} - {title}"`, and its subline is absent
exactly when the album is empty, and is `"From {album}"` otherwise.  The
conversion is a total Lean function of the record, so it is pure with no
failure mode. -/
theorem C8_activity_mapper (mi : MediaInfo) :
    (Activity.fromMediaInfo mi).details = "Playing " ++ mi.artist ++ " - " ++ mi.title
    ∧ (Activity.fromMediaInfo mi).state
        = (if mi.album = "" then none else some ("From " ++ mi.album)) := by
  by_cases h : mi.album = "" <;> simp [Activity.fromMediaInfo, h]

/-- C6 (confirmed): per consumed `PlayingMessage` the consumer task
performs exactly the one action `handleEvent` returns: with metadata and
status `Playing` it sets the activity with the mapped headline and optional
subline; with metadata and any other status it clears; without metadata it
clears regardless of status. -/
theorem C6_presence_actor_actions (mi : MediaInfo) (st : PlaybackStatus) :
    handleEvent (some mi, PlaybackStatus.Playing)
      = PresenceAction.setActivity (Activity.fromMediaInfo mi).details
          (Activity.fromMediaInfo mi).state
    ∧ (st ≠ PlaybackStatus.Playing →
        handleEvent (some mi, st) = PresenceAction.clearActivity)
    ∧ handleEvent (none, st) = PresenceAction.clearActivity := by
  refine ⟨?_, ?_, ?_⟩
  · cases h : (Activity.fromMediaInfo mi).state <;> simp [handleEvent, h]
  · intro hne
    cases st <;> simp_all [handleEvent]
  · cases st <;> rfl

/-- C6 witness: metadata with a non-`Playing` status clears the presence. -/
theorem C6_presence_actor_actions_witness :
    handleEvent (some (MediaInfo.mk "T" "A" "B"), PlaybackStatus.Paused)
      = PresenceAction.clearActivity :=
  (C6_presence_actor_actions (MediaInfo.mk "T" "A" "B") PlaybackStatus.Paused).2.1
    (by decide)

/-- Characterization of one listener iteration in terms of the classified
status and the metadata outcome. -/
lemma handleNotification_eq (sq : Except Unit String) (mq : Except Unit PropMap)
    (st : PlaybackStatus) (hst : read_playback_status sq = ClassifyResult.ok st) :
    handleNotification sq mq =
      if st = PlaybackStatus.Paused ∨ st = PlaybackStatus.Playing then
        match read_metadata mq with
        | Except.ok mi => HandlerOutcome.emits [(some mi, st)]
        | Except.error _ => HandlerOutcome.emits []
      else HandlerOutcome.emits [(none, st)] := by
  unfold handleNotification
  rw [hst]
  cases st <;> simp

/-- C1 counterexample: a notification whose status query answers "Playing"
but whose metadata query fails.  The `and_then` chain of the closure
short-circuits on the metadata error and the send is skipped, so the
iteration emits no event at all — refuting the claim that such a
notification still produces one event carrying no metadata. -/
theorem C1_counterexample :
    handleNotification (Except.ok "Playing") (Except.error ())
      = HandlerOutcome.emits []
    ∧ HandlerOutcome.emits ([] : List PlayingMessage)
      ≠ HandlerOutcome.emits [((none : Option MediaInfo), PlaybackStatus.Playing)] :=
  ⟨rfl, by decide⟩

/-- C1 (amended): per notification with a recognized status the listener
emits at most one event, and exactly one except in the metadata-failure
case: a status other than `Paused`/`Playing` emits `(None, status)`; a
`Paused`/`Playing` status with successful metadata emits
`(Some mi, status)`; a `Paused`/`Playing` status whose metadata query fails
(transport error or "no track data") emits nothing — the notification is
dropped rather than producing a metadata-less event. -/
theorem C1_amended (sq : Except Unit String) (mq : Except Unit PropMap)
    (st : PlaybackStatus) (hst : read_playback_status sq = ClassifyResult.ok st) :
    (∀ msgs, handleNotification sq mq = HandlerOutcome.emits msgs → msgs.length ≤ 1)
    ∧ ((st ≠ PlaybackStatus.Paused ∧ st ≠ PlaybackStatus.Playing) →
        handleNotification sq mq = HandlerOutcome.emits [(none, st)])
    ∧ (∀ mi, (st = PlaybackStatus.Paused ∨ st = PlaybackStatus.Playing) →
        read_metadata mq = Except.ok mi →
        handleNotification sq mq = HandlerOutcome.emits [(some mi, st)])
    ∧ ((st = PlaybackStatus.Paused ∨ st = PlaybackStatus.Playing) →
        (∀ e, read_metadata mq = Except.error e →
          handleNotification sq mq = HandlerOutcome.emits [])) := by
  refine ⟨?_, ?_, ?_, ?_⟩
  · intro msgs h
    rw [handleNotification_eq sq mq st hst] at h
    split at h
    · cases hmd : read_metadata mq <;> rw [hmd] at h <;>
        injection h with h2 <;> subst h2 <;> simp
    · injection h with h2
      subst h2
      simp
  · intro h
    rw [handleNotification_eq sq mq st hst, if_neg (fun hc => hc.elim h.1 h.2)]
  · intro mi hor hmd
    rw [handleNotification_eq sq mq st hst, if_pos hor, hmd]
  · intro hor e hmd
    rw [handleNotification_eq sq mq st hst, if_pos hor, hmd]

/-- C1 witness: a "Stopped" status with a failed metadata query emits the
one event `(None, Stopped)`. -/
theorem C1_amended_witness :
    handleNotification (Except.ok "Stopped") (Except.error ())
      = HandlerOutcome.emits [((none : Option MediaInfo), PlaybackStatus.Stopped)] :=
  (C1_amended (Except.ok "Stopped") (Except.error ()) PlaybackStatus.Stopped rfl).2.1
    (by decide)

/-- C7 (confirmed): any message carrying metadata that a listener iteration
sends on the channel has status `Playing` or `Paused`, and its metadata is
exactly the successfully parsed result of that iteration's metadata query;
in every other case the iteration sends metadata-less messages only. -/
theorem C7_event_invariant (sq : Except Unit String) (mq : Except Unit PropMap)
    (msgs : List PlayingMessage)
    (h : handleNotification sq mq = HandlerOutcome.emits msgs)
    (mi : MediaInfo) (st : PlaybackStatus) (hmem : (some mi, st) ∈ msgs) :
    (st = PlaybackStatus.Playing ∨ st = PlaybackStatus.Paused)
    ∧ read_metadata mq = Except.ok mi := by
  unfold handleNotification at h
  cases hp : read_playback_status sq with
  | fatal s =>
      rw [hp] at h
      cases h
  | ok status =>
      rw [hp] at h
      cases status <;> cases hmd : read_metadata mq <;>
        (try rw [hmd] at h) <;> injection h with h2 <;> subst h2 <;> simp_all

/-- C7 witness: a "Playing" notification with a title-only bag sends its
parsed metadata, and the invariant yields the status and parse facts. -/
theorem C7_event_invariant_witness :
    (PlaybackStatus.Playing = PlaybackStatus.Playing
      ∨ PlaybackStatus.Playing = PlaybackStatus.Paused)
    ∧ read_metadata (Except.ok [(keys.TITLE, DBusValue.vString "T")])
        = Except.ok (MediaInfo.mk "T" "" "") :=
  C7_event_invariant (Except.ok "Playing")
    (Except.ok [(keys.TITLE, DBusValue.vString "T")])
    [(some (MediaInfo.mk "T" "" ""), PlaybackStatus.Playing)] rfl
    (MediaInfo.mk "T" "" "") PlaybackStatus.Playing (by decide)

/-- A demonstration notification: status query answers "Stopped", metadata
query fails (it is not consulted for a non-playing status anyway). -/
def demoNotif : NotifInput := (Except.ok "Stopped", Except.error ())

/-- State after the listener has processed `demoNotif`: one event queued,
nothing consumed yet. -/
def demoAfterListener : SysState :=
  { pendingNotifs := [], streamOpen := true, senderOpen := true,
    queue := [(none, PlaybackStatus.Stopped)], pushed := [],
    processed := [demoNotif], sent := [(none, PlaybackStatus.Stopped)],
    actorTerminated := false, processExited := false }

lemma demo_step1 : Step (initState [demoNotif]) demoAfterListener :=
  Step.listener (initState [demoNotif]) demoNotif []
    [(none, PlaybackStatus.Stopped)] rfl rfl rfl rfl (by decide) rfl

/-- State in which the process has exited (main returned after the stream
future finished) while the one sent event is still queued, unconsumed. -/
def demoExitState : SysState :=
  { pendingNotifs := [], streamOpen := false, senderOpen := false,
    queue := [(none, PlaybackStatus.Stopped)], pushed := [],
    processed := [demoNotif], sent := [(none, PlaybackStatus.Stopped)],
    actorTerminated := false, processExited := true }

lemma demo_reaches_exit : Reachable (initState [demoNotif]) demoExitState := by
  refine Relation.ReflTransGen.head demo_step1 ?_
  refine Relation.ReflTransGen.head (Step.shutdown demoAfterListener rfl rfl) ?_
  refine Relation.ReflTransGen.head (Step.streamEnd _ rfl rfl rfl) ?_
  exact Relation.ReflTransGen.single (Step.mainExit _ rfl rfl)

/-- C5 (code bug): the drain guarantee fails.  `main` returns immediately
after `stream_fut.await` (line 192) without awaiting the `_discord_client`
join handle, and returning from the `tokio::main` runtime drops
still-running spawned tasks.  The execution below processes one
notification, triggers shutdown, ends the stream (closing the channel) and
then exits the process: it reaches a state where the process has exited
with the sent event still queued and nothing ever pushed to the presence
service — a queued event dropped on shutdown, against the claim.  (The
consumer loop itself would drain: `rx.recv()` only returns `None` on a
closed and empty channel; the slip is that nothing awaits it.) -/
theorem C5_bug :
    Reachable (initState [demoNotif]) demoExitState
    ∧ demoExitState.processExited = true
    ∧ demoExitState.sent = [((none : Option MediaInfo), PlaybackStatus.Stopped)]
    ∧ demoExitState.pushed = [] :=
  ⟨demo_reaches_exit, rfl, rfl, rfl⟩

/-- C9 (confirmed): end-to-end ordering.  In every reachable state the
pushed presence calls are, in order, the images under `handleEvent` of a
prefix of the sent messages, the queue holding exactly the remaining
suffix; the sent messages are the in-order concatenation of the emissions
of the processed notifications; and the processed notifications are a
prefix of the notification sequence as received.  Since the listener step
processes one notification fully (status query, optional metadata query,
classification, send) before taking the next, events corresponding to an
earlier notification reach the presence service before those of any later
one. -/
theorem C9_ordering (notifs : List NotifInput) (s : SysState)
    (h : Reachable (initState notifs) s) :
    (∃ done, s.sent = done ++ s.queue ∧ s.pushed = done.map handleEvent)
    ∧ s.sent = (s.processed.map emissionsOf).flatten
    ∧ s.processed ++ s.pendingNotifs = notifs :=
  pipelineInv_reachable notifs s h

/-- C9 witness: the invariant instantiated right after the listener has
processed the demonstration notification. -/
theorem C9_ordering_witness :
    (∃ done, demoAfterListener.sent = done ++ demoAfterListener.queue
      ∧ demoAfterListener.pushed = done.map handleEvent)
    ∧ demoAfterListener.sent = (demoAfterListener.processed.map emissionsOf).flatten
    ∧ demoAfterListener.processed ++ demoAfterListener.pendingNotifs = [demoNotif] :=
  C9_ordering [demoNotif] demoAfterListener (Relation.ReflTransGen.single demo_step1)
